import Mathlib

/-!
Verification of the buffered byte-stream and wire-encoding layer of
`src/libutil/serialise.cc`: the buffered sink/source bookkeeping, the
descriptor-backed transports, and the length-prefixed 8-byte-aligned
string codec. Byte streams are embedded as `List Nat` (each element a
byte value), fallible decoding as `Except`, and the stateful sink and
source objects as explicit state-passing functions.
-/

namespace Serialise

/-- The failure taxonomy of the layer: non-zero padding and over-32-bit
integers are structural violations (`SerialisationError` in the source),
an over-long string is the capacity error thrown by the bounded
`readString`, `endOfFile` is `EndOfFile`, and `ioError` is `SysError`. -/
inductive WireError where
  | nonZeroPadding
  | intTooLarge
  | stringTooLong
  | endOfFile
  | ioError
deriving DecidableEq, Repr

/-- `Source::operator()` (serialise.cc lines 80-86) over an in-memory byte
stream: loop `read` until exactly `n` bytes are delivered. Over a
`StringSource` (lines 130-136) each `read` yields `min (remaining, wanted)`
bytes and throws `EndOfFile` once the cursor reaches the end, so the loop
delivers the first `n` bytes when the stream holds at least `n`, and fails
with `endOfFile` otherwise. -/
def pull (n : Nat) (s : List Nat) : Except WireError (List Nat × List Nat) :=
  if s.length < n then .error .endOfFile
  else .ok (s.take n, s.drop n)

/-- `readInt` (serialise.cc lines 196-207): read 8 bytes; if any of bytes
4-7 is non-zero throw the structural violation ("implementation cannot
deal with > 32-bit integers"); otherwise reassemble bytes 0-3
little-endian (`buf[0] | buf[1] << 8 | buf[2] << 16 | buf[3] << 24`). -/
def readIntS (s : List Nat) : Except WireError (Nat × List Nat) :=
  match pull 8 s with
  | .error e => .error e
  | .ok (b, rest) =>
    if b.getD 4 0 ≠ 0 ∨ b.getD 5 0 ≠ 0 ∨ b.getD 6 0 ≠ 0 ∨ b.getD 7 0 ≠ 0 then
      .error .intTooLarge
    else
      .ok (b.getD 0 0 + b.getD 1 0 * 256 + b.getD 2 0 * 65536 + b.getD 3 0 * 16777216, rest)

/-- Modelled from the spec: the integer encoder (`writeInt` / `operator <<`
for unsigned integers, declared in serialise.hh which is not among the
sources) "emits 8 bytes, little-endian, of the 64-bit representation of
`n`". -/
def toLE8 (n : Nat) : List Nat :=
  [n % 256, n / 256 % 256, n / 65536 % 256, n / 16777216 % 256,
   n / 4294967296 % 256, n / 1099511627776 % 256,
   n / 281474976710656 % 256, n / 72057594037927936 % 256]

theorem toLE8_length (n : Nat) : (toLE8 n).length = 8 := rfl

theorem pull_append (n : Nat) (xs rest : List Nat) (h : xs.length = n) :
    pull n (xs ++ rest) = .ok (xs, rest) := by
  subst h
  unfold pull
  rw [if_neg (by simp)]
  rw [List.take_left, List.drop_left]

theorem readIntS_toLE8 (u : Nat) (rest : List Nat) (h : u < 2 ^ 64) :
    readIntS (toLE8 u ++ rest) =
      if u < 2 ^ 32 then .ok (u, rest) else .error .intTooLarge := by
  unfold readIntS
  rw [pull_append 8 (toLE8 u) rest (toLE8_length u)]
  simp only [toLE8, List.getD_cons_zero, List.getD_cons_succ]
  by_cases h32 : u < 2 ^ 32
  · have h1 : u / 4294967296 = 0 := Nat.div_eq_of_lt (lt_of_lt_of_le h32 (by norm_num))
    have h2 : u / 1099511627776 = 0 := Nat.div_eq_of_lt (lt_of_lt_of_le h32 (by norm_num))
    have h3 : u / 281474976710656 = 0 := Nat.div_eq_of_lt (lt_of_lt_of_le h32 (by norm_num))
    have h4 : u / 72057594037927936 = 0 := Nat.div_eq_of_lt (lt_of_lt_of_le h32 (by norm_num))
    rw [if_neg (by simp [h1, h2, h3, h4]), if_pos h32]
    have hval : u % 256 + u / 256 % 256 * 256 + u / 65536 % 256 * 65536
        + u / 16777216 % 256 * 16777216 = u := by omega
    rw [hval]
  · rw [if_pos, if_neg h32]
    by_contra hc
    push_neg at hc
    have h64 : u < 72057594037927936 * 256 := by
      calc u < 2 ^ 64 := h
      _ = 72057594037927936 * 256 := by norm_num
    omega

/-- `readLongLong` (serialise.cc lines 210-223): read 8 bytes and
reassemble the full 64-bit little-endian value, with no range check. -/
def readLongLongS (s : List Nat) : Except WireError (Nat × List Nat) :=
  match pull 8 s with
  | .error e => .error e
  | .ok (b, rest) =>
    .ok (b.getD 0 0 + b.getD 1 0 * 256 + b.getD 2 0 * 65536 + b.getD 3 0 * 16777216
      + b.getD 4 0 * 4294967296 + b.getD 5 0 * 1099511627776
      + b.getD 6 0 * 281474976710656 + b.getD 7 0 * 72057594037927936, rest)

/-- `readPadding` (serialise.cc lines 184-193): when `len` is not a
multiple of 8, read `8 - len % 8` bytes and throw the structural
violation ("non-zero padding") if any of them is non-zero. -/
def readPaddingS (len : Nat) (s : List Nat) : Except WireError (List Nat) :=
  if len % 8 ≠ 0 then
    match pull (8 - len % 8) s with
    | .error e => .error e
    | .ok (z, rest) => if z.all (· = 0) then .ok rest else .error .nonZeroPadding
  else .ok s

/-- The unbounded `readString` (serialise.cc lines 236-244): length via
`readInt` (hence 32-bit-checked), then exactly `len` payload bytes, then
padding validation. -/
def readStringS (s : List Nat) : Except WireError (List Nat × List Nat) :=
  match readIntS s with
  | .error e => .error e
  | .ok (len, s1) =>
    match pull len s1 with
    | .error e => .error e
    | .ok (bs, s2) =>
      match readPaddingS len s2 with
      | .error e => .error e
      | .ok s3 => .ok (bs, s3)

/-- The bounded `readString(buf, max, source)` (serialise.cc lines
226-233): length via `readInt`; `if (len > max) throw Error("string is
too long")` before any payload byte is pulled; then the payload and the
padding. -/
def readStringBoundedS (max : Nat) (s : List Nat) :
    Except WireError (Nat × List Nat × List Nat) :=
  match readIntS s with
  | .error e => .error e
  | .ok (len, s1) =>
    if max < len then .error .stringTooLong
    else
      match pull len s1 with
      | .error e => .error e
      | .ok (bs, s2) =>
        match readPaddingS len s2 with
        | .error e => .error e
        | .ok s3 => .ok (len, bs, s3)

/-- The element loop of `readStrings` (serialise.cc lines 263-265):
`while (count--) ss.insert(ss.end(), readString(source))`. -/
def readStringsLoop : Nat → List Nat → Except WireError (List (List Nat) × List Nat)
  | 0, s => .ok ([], s)
  | n + 1, s =>
    match readStringS s with
    | .error e => .error e
    | .ok (x, s1) =>
      match readStringsLoop n s1 with
      | .error e => .error e
      | .ok (xs, s2) => .ok (x :: xs, s2)

/-- `readStrings` (serialise.cc lines 260-267): the count is obtained via
`readInt` (32-bit-checked), then that many strings are decoded in order. -/
def readStringsS (s : List Nat) : Except WireError (List (List Nat) × List Nat) :=
  match readIntS s with
  | .error e => .error e
  | .ok (count, s1) => readStringsLoop count s1

/-- `writePadding` (serialise.cc lines 139-146): when `len` is not a
multiple of 8, emit `8 - len % 8` zero bytes; otherwise nothing. -/
def writePaddingS (len : Nat) : List Nat :=
  if len % 8 ≠ 0 then List.replicate (8 - len % 8) 0 else []

/-- `writeString` (serialise.cc lines 149-154): the length as an 8-byte
little-endian integer (`sink << len`), the raw bytes, then the padding. -/
def writeStringS (bs : List Nat) : List Nat :=
  toLE8 bs.length ++ bs ++ writePaddingS bs.length

theorem readPaddingS_after (len : Nat) (rest : List Nat) :
    readPaddingS len (writePaddingS len ++ rest) = .ok rest := by
  unfold readPaddingS writePaddingS
  by_cases h : len % 8 = 0
  · simp [h]
  · rw [if_pos h, if_pos h,
      pull_append (8 - len % 8) (List.replicate (8 - len % 8) 0) rest
        (List.length_replicate _ _)]
    dsimp only
    rw [if_pos]
    simp [List.all_eq_true]

theorem readStringS_writeStringS_large (bs : List Nat)
    (h32 : 2 ^ 32 ≤ bs.length) (h64 : bs.length < 2 ^ 64) :
    readStringS (writeStringS bs) = .error .intTooLarge := by
  unfold readStringS writeStringS
  have hint := readIntS_toLE8 bs.length (bs ++ writePaddingS bs.length) h64
  rw [if_neg (Nat.not_lt.mpr h32)] at hint
  rw [List.append_assoc, hint]

theorem readStringS_writeStringS (bs rest : List Nat) (h : bs.length < 2 ^ 32) :
    readStringS (writeStringS bs ++ rest) = .ok (bs, rest) := by
  unfold readStringS writeStringS
  rw [List.append_assoc, List.append_assoc,
    readIntS_toLE8 bs.length _ (lt_trans h (by norm_num)), if_pos h]
  dsimp only
  rw [pull_append bs.length bs _ rfl]
  dsimp only
  rw [readPaddingS_after bs.length rest]

/-- The observable state of a `BufferedSink` (serialise.hh/serialise.cc):
`buf` holds the bytes currently buffered (its length is the cursor
`bufPos`), and `out` records every byte the backend `write` primitive has
received, in order. The fixed capacity `bufSize` is passed to each
operation. Lazy allocation of the buffer is not observable at this level. -/
structure BufSink where
  buf : List Nat
  out : List Nat
deriving DecidableEq, Repr

/-- `BufferedSink::operator()` (serialise.cc lines 11-30). The loop runs at
most once per call: when `bufPos + len >= bufSize` it flushes the buffered
bytes and forwards the run directly to the backend, then breaks; otherwise
the whole run fits (`n = len` since `bufPos + len < bufSize`), is copied
into the buffer, and cannot make the buffer exactly full, so the loop
exits with `len = 0`. An empty run skips the loop body entirely. -/
def bsPush (bufSize : Nat) (st : BufSink) (data : List Nat) : BufSink :=
  if data = [] then st
  else if bufSize ≤ st.buf.length + data.length then ⟨[], st.out ++ st.buf ++ data⟩
  else ⟨st.buf ++ data, st.out⟩

/-- `BufferedSink::flush` (serialise.cc lines 33-39), with the backend
write call made explicit: nothing happens when the cursor is zero;
otherwise the cursor is reset to zero BEFORE the backend write is issued,
and the written run is returned separately, so the first component is the
sink's state at the moment `write` runs (and afterwards, whether or not
the write throws). -/
def bsFlushW (st : BufSink) : BufSink × Option (List Nat) :=
  if st.buf = [] then (st, none) else (⟨[], st.out⟩, some st.buf)

/-- `BufferedSink::flush` when the backend write succeeds: the buffered
bytes reach the backend. -/
def bsFlush (st : BufSink) : BufSink :=
  match bsFlushW st with
  | (st1, none) => st1
  | (st1, some w) => ⟨st1.buf, st1.out ++ w⟩

theorem bsPush_out_buf (bufSize : Nat) (st : BufSink) (data : List Nat) :
    (bsPush bufSize st data).out ++ (bsPush bufSize st data).buf
      = st.out ++ st.buf ++ data := by
  unfold bsPush
  by_cases h0 : data = []
  · simp [h0]
  · by_cases h1 : bufSize ≤ st.buf.length + data.length
    · simp [h0, h1]
    · simp [h0, h1, List.append_assoc]

theorem bsPush_foldl (bufSize : Nat) (pushes : List (List Nat)) (st : BufSink) :
    (pushes.foldl (bsPush bufSize) st).out ++ (pushes.foldl (bsPush bufSize) st).buf
      = st.out ++ st.buf ++ pushes.flatten := by
  induction pushes generalizing st with
  | nil => simp
  | cons d ds ih =>
    rw [List.foldl_cons, ih (bsPush bufSize st d), bsPush_out_buf, List.flatten_cons]
    simp [List.append_assoc]

/-- State of an `FdSink` (descriptor-backed sink): the running byte count
`written` and the health flag `_good`. -/
structure FdSinkState where
  written : Nat
  good : Bool
deriving DecidableEq, Repr

/-- Modelled from the spec: a freshly constructed descriptor sink is
healthy (the `_good` field and its initialiser live in serialise.hh,
which is not among the sources; the spec describes "a health flag that
downgrades to 'failed' on the first unrecoverable backend error"). -/
def initFdSink : FdSinkState := ⟨0, true⟩

/-- Outcome of one call to the backend full-write primitive `writeFull`. -/
inductive WriteFullOutcome where
  | success
  | sysError
deriving DecidableEq, Repr

/-- `FdSink::write` (serialise.cc lines 56-71): `written` is incremented
before the attempt; `writeFull` is invoked inside a try block, and a
caught `SysError` is not rethrown — the handler body is `_good = true;`
exactly as written in the source. The call returns normally in both
outcomes. The one-shot large-dump warning is diagnostic only and is not
modelled. -/
def fdSinkWrite (st : FdSinkState) (len : Nat) (o : WriteFullOutcome) : FdSinkState :=
  { written := st.written + len
    good := match o with
            | .success => st.good
            | .sysError => true }

/-- `FdSink::good` (serialise.cc lines 74-77): returns `_good`. -/
def fdSinkGood (st : FdSinkState) : Bool := st.good

/-- What the backend `::read` eventually does after the EINTR retries:
either an unrecoverable error (`n == -1` with `errno != EINTR`) or a
delivery of `bs` bytes (`n = bs.length`, with `n == 0` meaning
end of input). -/
inductive RdTerm where
  | ioerr
  | delivered (bs : List Nat)
deriving DecidableEq, Repr

/-- Result of one `FdSource::readUnbuffered` call: the outcome and the
`_good` flag after the call (the flag starts true and only the two error
branches assign it, to false). -/
structure RUResult where
  res : Except WireError (List Nat)
  good : Bool
deriving Repr

/-- `FdSource::readUnbuffered` (serialise.cc lines 110-121): the do/while
loop retries the backend read while it yields `-1`/`EINTR` (modelled by the
retry count `eintrs`); a final `-1` throws `SysError` with `_good = false`;
zero bytes throws `EndOfFile` ("unexpected end-of-file") with
`_good = false`; otherwise the delivered bytes are returned once. -/
def readUnbufferedS : Nat → RdTerm → RUResult
  | 0, .ioerr => ⟨.error .ioError, false⟩
  | 0, .delivered bs => if bs = [] then ⟨.error .endOfFile, false⟩ else ⟨.ok bs, true⟩
  | k + 1, t => readUnbufferedS k t

/-- `FdSource::readUnbuffered` with its signature made explicit: the
caller passes a destination and a `len`, but the count the source passes
to `::read(fd, data, ...)` on line 115 is `bufSize`, not `len`. The first
component is the count requested from the backend; the backend stores at
most that many bytes into the destination. -/
def readUnbufferedLen (bufSize : Nat) (len : Nat) (eintrs : Nat) (t : RdTerm) :
    Nat × RUResult :=
  (bufSize, readUnbufferedS eintrs t)

/-- State of a `BufferedSource`: capacity, the two cursors and the buffer
contents (`buffer` holds the `bufPosIn` valid bytes after a refill). -/
structure BufSrcState where
  bufSize : Nat
  bufPosIn : Nat
  bufPosOut : Nat
  buffer : List Nat
deriving DecidableEq, Repr

/-- `BufferedSource::read` (serialise.cc lines 89-101): when the window is
empty (`bufPosIn == 0`) it refills via
`readUnbuffered(buffer.get(), bufSize)` — destination capacity `bufSize` —
then copies out `min(len, bufPosIn - bufPosOut)` bytes and resets both
cursors when the window drains exactly. -/
def bufSrcRead (st : BufSrcState) (len : Nat) (eintrs : Nat) (t : RdTerm) :
    Except WireError (List Nat × BufSrcState) :=
  match (if st.bufPosIn = 0 then
          match (readUnbufferedLen st.bufSize st.bufSize eintrs t).2.res with
          | .error e => .error e
          | .ok bs => .ok { st with buffer := bs, bufPosIn := bs.length }
         else .ok st : Except WireError BufSrcState) with
  | .error e => .error e
  | .ok st1 =>
    let n := min len (st1.bufPosIn - st1.bufPosOut)
    let out := (st1.buffer.drop st1.bufPosOut).take n
    let posOut := st1.bufPosOut + n
    .ok (out,
      if st1.bufPosIn = posOut then { st1 with bufPosIn := 0, bufPosOut := 0 }
      else { st1 with bufPosOut := posOut })

/-- C3: for every unsigned integer `u` (within the 64-bit machine width),
decoding the 8-byte little-endian encoding of `u` with the 32-bit entry
point `readInt` returns `u` when `u < 2^32`, and fails with the
structural-violation error ("implementation cannot deal with > 32-bit
integers") when `u ≥ 2^32` (some of encoded bytes 4-7 is then nonzero). -/
theorem claim3_readInt_32bit (u : Nat) (rest : List Nat) (h : u < 2 ^ 64) :
    (u < 2 ^ 32 → readIntS (toLE8 u ++ rest) = .ok (u, rest))
    ∧ (2 ^ 32 ≤ u → readIntS (toLE8 u ++ rest) = .error .intTooLarge) := by
  constructor
  · intro h32
    rw [readIntS_toLE8 u rest h, if_pos h32]
  · intro h32
    rw [readIntS_toLE8 u rest h, if_neg (Nat.not_lt.mpr h32)]

theorem claim3_witness :
    readIntS (toLE8 5 ++ []) = .ok (5, [])
    ∧ readIntS (toLE8 (2 ^ 32) ++ []) = .error .intTooLarge :=
  ⟨(claim3_readInt_32bit 5 [] (by norm_num)).1 (by norm_num),
   (claim3_readInt_32bit (2 ^ 32) [] (by norm_num)).2 (by norm_num)⟩

/-- C2 (amended): for every byte sequence `bs` whose length is below
`2^32`, decoding the encoding of `bs` returns `bs` (with the rest of the
stream untouched); and for EVERY byte sequence the encoded form has
length `8 + len + (8 - len % 8) % 8` — the padding is omitted when the
length is a multiple of 8. (The length restriction on the round-trip is
forced by the decoder obtaining the length via the 32-bit-checked
`readInt`; see the counterexample.) -/
theorem claim2_roundtrip_and_length :
    (∀ bs rest : List Nat, bs.length < 2 ^ 32 →
      readStringS (writeStringS bs ++ rest) = .ok (bs, rest))
    ∧ (∀ bs : List Nat,
      (writeStringS bs).length = 8 + bs.length + (8 - bs.length % 8) % 8) := by
  constructor
  · exact fun bs rest h => readStringS_writeStringS bs rest h
  · intro bs
    unfold writeStringS writePaddingS
    by_cases h : bs.length % 8 = 0
    · simp [h, toLE8]
      omega
    · simp [h, toLE8]
      omega

theorem claim2_witness :
    readStringS (writeStringS [1, 2, 3] ++ [9]) = .ok ([1, 2, 3], [9])
    ∧ (writeStringS [1, 2, 3]).length = 8 + [1, 2, 3].length + (8 - [1, 2, 3].length % 8) % 8 :=
  ⟨claim2_roundtrip_and_length.1 [1, 2, 3] [9] (by norm_num),
   claim2_roundtrip_and_length.2 [1, 2, 3]⟩

/-- C2 counterexample: for the byte sequence of length `2^32` the
round-trip fails — the unbounded string decoder takes its length through
the 32-bit-checked `readInt`, so decoding the encoding of a `2^32`-byte
string raises the structural violation instead of returning the bytes. -/
theorem claim2_counterexample :
    readStringS (writeStringS (List.replicate (2 ^ 32) 0)) = .error .intTooLarge :=
  readStringS_writeStringS_large (List.replicate (2 ^ 32) 0)
    (by rw [List.length_replicate]) (by rw [List.length_replicate]; norm_num)

/-- C4: when the next field of the stream encodes a string of length `L`
(below `2^32`) and the caller maximum is `max < L`, the bounded
`readString` fails with the capacity error ("string is too long"), and
the only bytes consumed are the 8 bytes of the length field — `readInt`
on the same stream succeeds leaving exactly `rest`, and the failure
occurs for every `rest`, including streams holding no payload at all. -/
theorem claim4_capacity_guard (L max : Nat) (rest : List Nat)
    (hL : L < 2 ^ 32) (hmax : max < L) :
    readStringBoundedS max (toLE8 L ++ rest) = .error .stringTooLong
    ∧ readIntS (toLE8 L ++ rest) = .ok (L, rest) := by
  have hint : readIntS (toLE8 L ++ rest) = .ok (L, rest) := by
    rw [readIntS_toLE8 L rest (lt_trans hL (by norm_num)), if_pos hL]
  refine ⟨?_, hint⟩
  unfold readStringBoundedS
  rw [hint]
  dsimp only
  rw [if_pos hmax]

theorem claim4_witness :
    readStringBoundedS 1 (toLE8 2 ++ []) = .error .stringTooLong
    ∧ readIntS (toLE8 2 ++ []) = .ok (2, []) :=
  claim4_capacity_guard 2 1 [] (by norm_num) (by norm_num)

/-- C5: for an encoded string whose length `L` is not a multiple of 8,
decoding fails with the structural violation ("non-zero padding") exactly
when some of the `8 - L % 8` padding bytes is nonzero, and succeeds when
they are all zero — for every payload content, via `readPadding` itself
and via both `readString` variants. -/
theorem claim5_padding_validation (L max : Nat) (payload pad rest : List Nat)
    (hL : L < 2 ^ 32) (hlen : payload.length = L) (hmod : L % 8 ≠ 0)
    (hpad : pad.length = 8 - L % 8) (hmax : L ≤ max) :
    (readPaddingS L (pad ++ rest)
      = if pad.all (· = 0) then .ok rest else .error .nonZeroPadding)
    ∧ (readStringS (toLE8 L ++ (payload ++ (pad ++ rest)))
      = if pad.all (· = 0) then .ok (payload, rest) else .error .nonZeroPadding)
    ∧ (readStringBoundedS max (toLE8 L ++ (payload ++ (pad ++ rest)))
      = if pad.all (· = 0) then .ok (L, payload, rest) else .error .nonZeroPadding) := by
  have hrp : readPaddingS L (pad ++ rest)
      = if pad.all (· = 0) then .ok rest else .error .nonZeroPadding := by
    unfold readPaddingS
    rw [if_pos hmod, pull_append (8 - L % 8) pad rest hpad]
  have hint : readIntS (toLE8 L ++ (payload ++ (pad ++ rest)))
      = .ok (L, payload ++ (pad ++ rest)) := by
    rw [readIntS_toLE8 _ _ (lt_trans hL (by norm_num)), if_pos hL]
  refine ⟨hrp, ?_, ?_⟩
  · unfold readStringS
    rw [hint]
    dsimp only
    rw [pull_append L payload _ hlen]
    dsimp only
    rw [hrp]
    cases hb : pad.all (· = 0) <;> simp [hb]
  · unfold readStringBoundedS
    rw [hint]
    dsimp only
    rw [if_neg (Nat.not_lt.mpr hmax), pull_append L payload _ hlen]
    dsimp only
    rw [hrp]
    cases hb : pad.all (· = 0) <;> simp [hb]

theorem claim5_witness :
    readPaddingS 1 ([1, 0, 0, 0, 0, 0, 0] ++ []) = .error .nonZeroPadding
    ∧ readStringS (toLE8 1 ++ ([7] ++ ([1, 0, 0, 0, 0, 0, 0] ++ [])))
      = .error .nonZeroPadding
    ∧ readStringBoundedS 1 (toLE8 1 ++ ([7] ++ ([1, 0, 0, 0, 0, 0, 0] ++ [])))
      = .error .nonZeroPadding := by
  have h := claim5_padding_validation 1 1 [7] [1, 0, 0, 0, 0, 0, 0] []
    (by norm_num) rfl (by norm_num) (by norm_num) (le_refl 1)
  simpa using h

theorem readUnbufferedS_delivered (k : Nat) (bs : List Nat) (h : bs ≠ []) :
    readUnbufferedS k (.delivered bs) = ⟨.ok bs, true⟩ := by
  induction k with
  | zero =>
    unfold readUnbufferedS
    rw [if_neg h]
  | succ n ih =>
    unfold readUnbufferedS
    exact ih

theorem readUnbufferedS_empty (k : Nat) :
    readUnbufferedS k (.delivered []) = ⟨.error .endOfFile, false⟩ := by
  induction k with
  | zero =>
    unfold readUnbufferedS
    rw [if_pos rfl]
  | succ n ih =>
    unfold readUnbufferedS
    exact ih

/-- C1 (the code's actual behavior at the failing input): a write whose
backend `writeFull` raises `SysError` returns normally — the error is
swallowed — but the catch handler is `_good = true;`, so afterwards the
health query `good()` returns `true`, never `false`: the sink does NOT
mark itself unhealthy (it would even mark an already-unhealthy sink
healthy again), contradicting the claim and the documented intent. -/
theorem claim1_failed_write_reports_healthy :
    fdSinkGood (fdSinkWrite initFdSink 5 .sysError) = true
    ∧ fdSinkGood (fdSinkWrite ⟨0, false⟩ 5 .sysError) = true :=
  ⟨rfl, rfl⟩

theorem bsFlush_out (st : BufSink) : (bsFlush st).out = st.out ++ st.buf := by
  unfold bsFlush bsFlushW
  by_cases hb : st.buf = []
  · simp [hb]
  · simp [hb]

/-- C6: for every buffer capacity and every finite sequence of pushed
byte runs — arbitrary lengths, including runs exceeding the capacity and
runs straddling buffer boundaries — the bytes the backend write primitive
has received after a final flush are exactly the concatenation of all
pushed bytes, in order. -/
theorem claim6_push_transparent (bufSize : Nat) (pushes : List (List Nat)) :
    (bsFlush (pushes.foldl (bsPush bufSize) ⟨[], []⟩)).out = pushes.flatten := by
  rw [bsFlush_out, bsPush_foldl]
  simp

/-- C7: a descriptor source whose backend yields EINTR any finite number
of times before delivering a nonempty run of bytes returns exactly those
bytes, once, with the health flag intact; if the backend instead reports
zero bytes, the call raises the end-of-stream error and marks the source
unhealthy rather than returning an empty result. -/
theorem claim7_eintr_retry (k : Nat) (bs : List Nat) :
    (bs ≠ [] → readUnbufferedS k (.delivered bs) = ⟨.ok bs, true⟩)
    ∧ readUnbufferedS k (.delivered []) = ⟨.error .endOfFile, false⟩ :=
  ⟨fun h => readUnbufferedS_delivered k bs h, readUnbufferedS_empty k⟩

theorem claim7_witness :
    readUnbufferedS 2 (.delivered [9, 4]) = ⟨.ok [9, 4], true⟩
    ∧ readUnbufferedS 2 (.delivered []) = ⟨.error .endOfFile, false⟩ :=
  ⟨(claim7_eintr_retry 2 [9, 4]).1 (by simp), (claim7_eintr_retry 2 []).2⟩

/-- C8: `flush` is a no-op — no backend call at all — when the cursor is
zero; when the cursor is nonzero, the state at the moment the backend
write is issued already has an empty buffer (the cursor is reset BEFORE
the write), the write receives exactly the buffered bytes, and flushing
again from that state — as the destructor does after a failed write —
issues no backend call, so the same bytes are never re-sent. -/
theorem claim8_flush_resets_cursor_first (st : BufSink) :
    (st.buf = [] → bsFlushW st = (st, none))
    ∧ (st.buf ≠ [] →
        (bsFlushW st).1.buf = []
        ∧ (bsFlushW st).2 = some st.buf
        ∧ bsFlushW (bsFlushW st).1 = ((bsFlushW st).1, none)) := by
  constructor
  · intro h
    unfold bsFlushW
    rw [if_pos h]
  · intro h
    refine ⟨?_, ?_, ?_⟩ <;> simp [bsFlushW, h]

theorem claim8_witness :
    bsFlushW ⟨[], [5]⟩ = (⟨[], [5]⟩, none)
    ∧ ((bsFlushW ⟨[1, 2], [0]⟩).1.buf = []
        ∧ (bsFlushW ⟨[1, 2], [0]⟩).2 = some [1, 2]
        ∧ bsFlushW (bsFlushW ⟨[1, 2], [0]⟩).1 = ((bsFlushW ⟨[1, 2], [0]⟩).1, none)) :=
  ⟨(claim8_flush_resets_cursor_first ⟨[], [5]⟩).1 rfl,
   (claim8_flush_resets_cursor_first ⟨[1, 2], [0]⟩).2 (by simp)⟩

/-- C9: `FdSource::readUnbuffered` ignores its `len` argument — the
outcome is identical for any two values of it — and the count it passes
to the backend `::read` is `bufSize`; a delivered run is stored into the
destination in full (a concrete call with `len = 1` stores 3 bytes), so
freedom from out-of-bounds writes needs destination capacity `bufSize`,
which `len` does not imply; and at the sole internal call site,
`BufferedSource::read` refills its own buffer of capacity `bufSize`, so
the stored run and the resulting window stay within `bufSize`. -/
theorem claim9_len_ignored (bufSize l1 l2 eintrs : Nat) (t : RdTerm) :
    readUnbufferedLen bufSize l1 eintrs t = readUnbufferedLen bufSize l2 eintrs t
    ∧ (readUnbufferedLen bufSize l1 eintrs t).1 = bufSize
    ∧ (∃ stored, (readUnbufferedLen 8 1 0 (.delivered [5, 6, 7])).2.res = .ok stored
        ∧ 1 < stored.length)
    ∧ (∀ st : BufSrcState, ∀ bs : List Nat, st.bufPosIn = 0 → bs ≠ [] →
        bs.length ≤ st.bufSize →
        ∃ r st2, bufSrcRead st l1 eintrs (.delivered bs) = .ok (r, st2)
          ∧ st2.bufPosIn ≤ st.bufSize ∧ st2.buffer.length ≤ st.bufSize) := by
  refine ⟨rfl, rfl, ⟨[5, 6, 7], ?_, by norm_num⟩, ?_⟩
  · show (readUnbufferedS 0 (.delivered [5, 6, 7])).res = .ok [5, 6, 7]
    rw [readUnbufferedS_delivered 0 [5, 6, 7] (by simp)]
  · intro st bs h0 hne hlen
    unfold bufSrcRead readUnbufferedLen
    rw [if_pos h0, readUnbufferedS_delivered eintrs bs hne]
    dsimp only
    refine ⟨_, _, rfl, ?_, ?_⟩ <;> split <;> simp [hlen]

theorem claim9_witness :
    readUnbufferedLen 8 1 0 (.delivered [5, 6]) = readUnbufferedLen 8 2 0 (.delivered [5, 6])
    ∧ (∃ r st2, bufSrcRead ⟨8, 0, 0, []⟩ 1 0 (.delivered [5, 6]) = .ok (r, st2)
        ∧ st2.bufPosIn ≤ 8 ∧ st2.buffer.length ≤ 8) :=
  ⟨(claim9_len_ignored 8 1 2 0 (.delivered [5, 6])).1,
   (claim9_len_ignored 8 1 2 0 (.delivered [5, 6])).2.2.2 ⟨8, 0, 0, []⟩ [5, 6]
     rfl (by simp) (by norm_num)⟩

/-- C10: although the wire format's count field is 8 bytes, the
collection decoder `readStrings` and the unbounded string decoder both
obtain the count/length via the 32-bit-checked `readInt`, so on every
stream whose first 8 bytes have any nonzero byte in positions 4-7 both
fail with the structural violation at once, before decoding any element,
for every continuation of the stream. -/
theorem claim10_count_32bit_guard (b rest : List Nat) (hlen : b.length = 8)
    (hbad : ¬ (b.getD 4 0 = 0 ∧ b.getD 5 0 = 0 ∧ b.getD 6 0 = 0 ∧ b.getD 7 0 = 0)) :
    readStringsS (b ++ rest) = .error .intTooLarge
    ∧ readStringS (b ++ rest) = .error .intTooLarge := by
  have hint : readIntS (b ++ rest) = .error .intTooLarge := by
    unfold readIntS
    rw [pull_append 8 b rest hlen]
    dsimp only
    rw [if_pos (by tauto)]
  constructor
  · unfold readStringsS
    rw [hint]
  · unfold readStringS
    rw [hint]

theorem claim10_witness :
    readStringsS ([0, 0, 0, 0, 0, 0, 0, 1] ++ []) = .error .intTooLarge
    ∧ readStringS ([0, 0, 0, 0, 0, 0, 0, 1] ++ []) = .error .intTooLarge :=
  claim10_count_32bit_guard [0, 0, 0, 0, 0, 0, 0, 1] [] rfl (by decide)

end Serialise
